import Mathlib

/-!
Shallow embedding of the MediScan symptom-checker inference engine: the
statistical backend (`main.py`, route `/predict`), the heuristic backend
(`mock_predict_server.py`, route `/predict`) and the disease-information
lookup (`streamlit_app.py`, `_find_disease_info`), together with proofs of
the behavioural properties stated in the specification.

Modelling conventions: Python floats are modelled as real numbers with
exact arithmetic.  For the statistical backend, where the classifier output
is only compared and copied, probabilities are modelled as rationals so the
ranking logic stays fully computable; the classifier and label decoder are
external binary artifacts, so their outputs enter as parameters.  Python
dicts preserve insertion order and are modelled as association lists.
`round(v, 3)` is modelled as rounding to the nearest multiple of `1/1000`.
-/

namespace MediScan

/-- Python substring test `needle in hay`, on the underlying character
lists. -/
def containsSub (needle : List Char) : List Char → Bool
  | [] => needle.isEmpty
  | c :: rest => needle.isPrefixOf (c :: rest) || containsSub needle rest

/-- Python substring test `needle in hay` for strings. -/
def strIn (needle hay : String) : Bool := containsSub needle.data hay.data

/-- Python `s.lower()` (character-wise lower-casing; all strings involved
are ASCII). -/
def pyLower (s : String) : String := ⟨s.data.map Char.toLower⟩

/-- Python `s.strip()`: drop leading and trailing whitespace. -/
def pyStrip (s : String) : String :=
  ⟨((s.data.dropWhile Char.isWhitespace).reverse.dropWhile Char.isWhitespace).reverse⟩

/-- Python `s.split()` with no argument: split on whitespace runs,
dropping empty fragments. -/
def pySplitWs (s : String) : List String :=
  ((s.data.foldr
      (fun c acc =>
        match acc with
        | t :: rest => if c.isWhitespace then [] :: t :: rest else (c :: t) :: rest
        | [] => [])
      [[]]).filter fun t => t ≠ []).map fun t => (⟨t⟩ : String)

/-- Symptom normalisation used by both backends:
`s.lower().replace(" ", "_")` (the pattern is the single space character,
so the replacement is character-wise). -/
def normalizeSymptom (s : String) : String :=
  ⟨(pyLower s).data.map fun c => if c = ' ' then '_' else c⟩

/-- Normalised symptom set
`given = {s.lower().replace(" ", "_") for s in symptoms}`. -/
def givenSet (symptoms : List String) : Finset String :=
  (symptoms.map normalizeSymptom).toFinset

/-- One `{disease, probability}` prediction entry; the probability type is
a parameter (rationals for the statistical backend, reals for the
heuristic backend). -/
structure PredictionEntry (α : Type) where
  disease : String
  probability : α
deriving DecidableEq

/-- One urgency verdict `{level, recommendation}`. -/
structure Urgency where
  level : String
  recommendation : String
deriving DecidableEq

/-- Request body of the heuristic backend (`PredictRequest`). -/
structure PredictRequest where
  symptoms : List String
  description : String := ""

/-- Response of the heuristic backend; `mock_predict_server.predict`
returns no `status` field. -/
structure MockResponse where
  predictions : List (PredictionEntry ℝ)
  urgency : Urgency

/-- The `_DISEASE_SYMPTOMS` table of `mock_predict_server.py`, in its
Python insertion order.  The Python symptom sets are used only through
membership and cardinality, so they are kept as duplicate-free lists and
converted with `List.toFinset` at their use sites. -/
def diseaseSymptoms : List (String × List String) := [
  ("common cold", ["cough", "sore_throat", "runny_nose", "sneezing", "congestion"]),
  ("influenza", ["fever", "chills", "muscle_ache", "fatigue", "headache"]),
  ("covid-19", ["fever", "cough", "loss_of_taste_or_smell", "shortness_of_breath", "fatigue"]),
  ("pneumonia", ["fever", "cough", "shortness_of_breath", "chest_pain", "productive_cough"]),
  ("gastroenteritis", ["diarrhea", "vomiting", "nausea", "abdominal_pain"]),
  ("migraine", ["headache", "nausea", "sensitivity", "photophobia"]),
  ("urinary tract infection", ["burning", "frequency", "urinary", "dysuria"]),
  ("asthma", ["wheeze", "shortness_of_breath", "cough", "chest_tightness"]),
  ("sinusitis", ["facial_pain", "nasal_congestion", "purulent_discharge", "sinus_pressure"]),
  ("otitis media", ["ear_pain", "fever", "reduced_hearing"]),
  ("appendicitis", ["abdominal_pain", "right_lower_quadrant", "nausea", "vomiting"]),
  ("gastroesophageal reflux (gerd)", ["heartburn", "regurgitation", "chest_discomfort"]),
  ("cellulitis", ["redness", "swelling", "pain", "warmth"]),
  ("anaphylaxis", ["hives", "swelling", "difficulty_breathing", "low_blood_pressure"]),
  ("panic attack", ["palpitations", "shortness_of_breath", "sweating", "fear"]),
  ("kidney stone", ["flank_pain", "hematuria", "nausea", "vomiting"])]

/-- Description-boost loop of the heuristic scorer: `+0.12` for every
whitespace token of the disease name occurring as a substring of the
lower-cased description. -/
noncomputable def descBoost (disease description : String) : ℝ :=
  (pySplitWs disease).foldl
    (fun acc tok => if strIn tok (pyLower description) then acc + 0.12 else acc) 0

/-- Raw heuristic score of one disease:
`max(0.0, match_count / max(1, len(attrs)) + desc_boost)`. -/
noncomputable def rawScore (given : Finset String) (description : String)
    (disease : String) (attrs : List String) : ℝ :=
  let matchCount := (attrs.toFinset ∩ given).card
  let base : ℝ := (matchCount : ℝ) / ((max 1 attrs.toFinset.card : ℕ) : ℝ)
  max 0 (base + descBoost disease description)

/-- The `raw_scores` dict of the heuristic backend, in table order. -/
noncomputable def rawScores (req : PredictRequest) : List (String × ℝ) :=
  diseaseSymptoms.map fun e => (e.1, rawScore (givenSet req.symptoms) req.description e.1 e.2)

/-- Python `max(vals)` over a list of floats; 0 on the empty list, which
the softmax helper never reaches thanks to its emptiness guard. -/
noncomputable def pyMax : List ℝ → ℝ
  | [] => 0
  | x :: xs => xs.foldl max x

/-- The `softmax` helper of the heuristic backend, on an association list
in dict order. -/
noncomputable def softmaxD (scores : List (String × ℝ)) : List (String × ℝ) :=
  if scores.isEmpty then []
  else
    let maxv := pyMax (scores.map Prod.snd)
    let exps := scores.map fun p => (p.1, Real.exp (p.2 - maxv))
    let s := (exps.map Prod.snd).sum
    if s ≤ 0 then scores.map fun p => (p.1, (0 : ℝ))
    else exps.map fun p => (p.1, p.2 / s)

/-- Model of Python `round(v, 3)`: rounding to the nearest multiple of
`1/1000`.  (Python breaks exact ties to even and works on binary floating
point; every property proved below is insensitive to the tie convention.) -/
noncomputable def round3 (x : ℝ) : ℝ := ((round (1000 * x) : ℤ) : ℝ) / 1000

/-- Comparison realised by `sorted(..., key=lambda x: x[1], reverse=True)`:
a stable sort placing larger probabilities first. -/
def byProbDesc (a b : String × ℝ) : Prop := b.2 ≤ a.2

noncomputable instance : DecidableRel byProbDesc :=
  fun a b => inferInstanceAs (Decidable (b.2 ≤ a.2))

/-- The probability distribution computed by the heuristic backend before
rounding: `probs = softmax(raw_scores)`. -/
noncomputable def mockProbs (req : PredictRequest) : List (String × ℝ) :=
  softmaxD (rawScores req)

/-- The fixed fallback list of the heuristic backend. -/
def fallbackPreds : List (PredictionEntry ℝ) :=
  [⟨"common cold", 0.5⟩, ⟨"influenza", 0.3⟩, ⟨"covid-19", 0.2⟩]

/-- The sorted, positivity-filtered, rounded prediction list of the
heuristic backend (its list comprehension over `sorted(probs.items(), ...)`). -/
noncomputable def mockRankedPreds (req : PredictRequest) : List (PredictionEntry ℝ) :=
  ((List.insertionSort byProbDesc (mockProbs req)).filter fun p => 0 < p.2).map
    fun p => ⟨p.1, round3 p.2⟩

/-- The heuristic backend `predict` endpoint of `mock_predict_server.py`. -/
noncomputable def mockPredict (req : PredictRequest) : MockResponse :=
  let given := givenSet req.symptoms
  let ranked := mockRankedPreds req
  let preds := if ranked.isEmpty then fallbackPreds else ranked
  let urgency : Urgency :=
    if "chest_pain" ∈ given ∨ "shortness_of_breath" ∈ given ∨
        strIn "chest" (pyLower req.description) then
      ⟨"high",
        "Seek immediate medical attention (ER) for chest pain or severe breathing difficulty."⟩
    else if "fever" ∈ given ∨ "high_fever" ∈ given ∨ "severe_fatigue" ∈ given then
      ⟨"medium", "Contact your primary care or urgent care for evaluation."⟩
    else
      ⟨"low", "Monitor symptoms and follow up if they worsen."⟩
  ⟨preds, urgency⟩

/-- Response of the statistical backend route in `main.py`; this endpoint
also reports a `status` string. -/
structure MainResponse where
  predictions : List (PredictionEntry ℚ)
  urgency : Urgency
  status : String
deriving DecidableEq

/-- Stable ascending argsort of the probability vector, modelling
`numpy.argsort(probs)`: indices sorted by value, ties kept in index order
(numpy's default sort runs plain insertion sort on arrays as small as the
class counts involved here, which is stable). -/
def argsortAsc (probs : List ℚ) : List ℕ :=
  List.insertionSort (fun i j => probs.getD i 0 ≤ probs.getD j 0) (List.range probs.length)

/-- The statistical backend `/predict` route of `main.py`.  The classifier
and the label decoder are external binary artifacts, so their outputs enter
as parameters: `probs` is the `predict_proba` row and `classLabels` the
resolved class-label list.  Only the path with a loaded model and a
successful `predict_proba` call is modelled; the feature-frame construction
feeds the classifier and does not affect the response shape. -/
def predictMain (symptoms : List String) (description : String)
    (probs : List ℚ) (classLabels : List String) : MainResponse :=
  if symptoms = [] then
    { predictions := [],
      urgency := ⟨"low", "Please provide at least one symptom."⟩,
      status := "no_input" }
  else
    let stripped := (symptoms.filter fun s => s ≠ "").map pyStrip
    let idxSorted := (argsortAsc probs).reverse
    let predictions := (idxSorted.take 10).map fun i =>
      (⟨classLabels.getD i (toString i), probs.getD i 0⟩ : PredictionEntry ℚ)
    let given := givenSet stripped
    let lowSymptoms : Finset String := {"fever", "cough", "fatigue"}
    let highFlags : Finset String := {"chest_pain", "shortness_of_breath", "severe_breathing"}
    let urgency : Urgency :=
      if (given ∩ highFlags).Nonempty ∨ strIn "chest" (pyLower description) then
        ⟨"high", "Seek immediate medical attention (call emergency services or go to ER)."⟩
      else if (given ∩ lowSymptoms).Nonempty then
        ⟨"medium",
          "Contact your primary care or urgent care for evaluation if symptoms persist or worsen."⟩
      else
        ⟨"low", "Monitor your symptoms and follow up if they worsen."⟩
    { predictions := predictions, urgency := urgency, status := "success" }

/-- The statistical scorer's emission order: one entry per class index, in
class order, before any ranking. -/
def mainEmission (probs : List ℚ) (classLabels : List String) : List (PredictionEntry ℚ) :=
  (List.range probs.length).map fun i => ⟨classLabels.getD i (toString i), probs.getD i 0⟩

/-- One `DISEASE_INFO` record of `streamlit_app.py`. -/
structure DiseaseRecord where
  emoji : String
  desc : String
  advice : String
  keywords : List String
deriving DecidableEq

/-- The `DISEASE_INFO` table of `streamlit_app.py`, in its Python insertion
order. -/
def diseaseInfo : List (String × DiseaseRecord) := [
  ("common cold", ⟨"🤧",
    "A mild viral infection of the upper respiratory tract. Symptoms are usually mild and self-limited.",
    "Rest, fluids, saline nasal spray, and OTC symptom relief. See a clinician if symptoms worsen or last >10 days.",
    ["cold", "rhinitis", "runny", "sore throat"]⟩),
  ("influenza", ⟨"🤒",
    "Influenza causes fever, body aches, cough and fatigue — can be more severe than a common cold.",
    "Rest, fluids, and consider antivirals if within 48 hours and at-risk. Seek care for breathing difficulty.",
    ["flu", "influenza", "body ache", "myalgia"]⟩),
  ("covid-19", ⟨"🦠",
    "COVID-19 is caused by SARS‑CoV‑2 and can present with fever, cough, and loss of taste or smell.",
    "Isolate, test if available, monitor oxygenation. Seek urgent care for shortness of breath or chest pain.",
    ["covid", "sars", "corona", "loss of taste", "loss of smell"]⟩),
  ("migraine", ⟨"🤯",
    "Migraines are recurrent headaches often with nausea and sensitivity to light/sound.",
    "Rest in a dark room, use prescribed agents. Seek immediate care for a new sudden severe headache.",
    ["migraine", "headache", "throbbing"]⟩),
  ("gastroenteritis", ⟨"🤢",
    "Infection or inflammation of the stomach/intestine causing vomiting and diarrhea.",
    "Hydrate with oral rehydration solutions. Seek care for bloody stools or severe dehydration.",
    ["diarrhea", "vomit", "gastro", "stomach"]⟩),
  ("pneumonia", ⟨"🫁",
    "Infection of the lungs causing cough, fever, and sometimes difficulty breathing.",
    "Medical evaluation is recommended; antibiotics or hospital care may be needed depending on severity.",
    ["pneumonia", "lung infection", "consolidation"]⟩),
  ("bronchitis", ⟨"🌬️",
    "Inflammation of the bronchial tubes causing cough and phlegm production.",
    "Rest and fluids; see clinician if cough is severe, prolonged or pus-like sputum develops.",
    ["bronchitis", "bronchial", "productive cough"]⟩),
  ("dehydration", ⟨"💧",
    "Loss of fluids/electrolytes causing dizziness, dry mouth, and decreased urine output.",
    "Oral rehydration; seek urgent care for severe symptoms or inability to keep fluids down.",
    ["dehydrate", "dehydration", "dry mouth", "dizzy"]⟩),
  ("strep throat", ⟨"🗣️",
    "Bacterial infection of the throat causing sore throat, fever, and swollen lymph nodes.",
    "See a clinician for testing and antibiotics if confirmed.",
    ["strep", "strep throat", "tonsillitis"]⟩),
  ("allergic rhinitis", ⟨"🤧",
    "Allergic reaction causing sneezing, itchy/watery eyes and runny nose.",
    "Avoid triggers, use antihistamines or nasal steroids. Seek care if breathing difficulty occurs.",
    ["allergy", "hay fever", "sneezing", "itchy eyes"]⟩),
  ("urinary tract infection", ⟨"🚽",
    "Infection of the urinary tract causing burning with urination and frequent urges.",
    "See a clinician for diagnosis and antibiotics if needed.",
    ["uti", "urinary", "burning urine", "frequency"]⟩),
  ("asthma", ⟨"🌬️",
    "Chronic airway inflammation leading to wheeze, cough, chest tightness and shortness of breath.",
    "Use prescribed inhalers and seek urgent care for severe breathlessness or noisy breathing.",
    ["wheeze", "asthma", "wheezing", "bronchospasm"]⟩),
  ("sinusitis", ⟨"😷",
    "Inflammation of the sinuses causing facial pain/pressure, nasal congestion and purulent discharge.",
    "Saline rinses and decongestants; see clinician for persistent pain or high fever.",
    ["sinus", "sinusitis", "facial pain", "sinus pain"]⟩),
  ("otitis media", ⟨"👂",
    "Middle ear infection common in children, often with ear pain, fever and reduced hearing.",
    "Pain control and clinician review; antibiotics may be indicated based on exam.",
    ["ear pain", "otitis", "earache", "ear infection"]⟩),
  ("appendicitis", ⟨"🔪",
    "Inflammation of the appendix causing progressive abdominal pain (often starts periumbilical then localizes to the right lower abdomen).",
    "Seek immediate emergency care for severe or worsening abdominal pain, fever, or vomiting.",
    ["appendix", "appendicitis", "right lower quadrant", "abdominal pain"]⟩),
  ("gastroesophageal reflux (gerd)", ⟨"🔥",
    "Backflow of stomach acid causing heartburn, regurgitation and chest discomfort.",
    "Lifestyle measures and antacids; see clinician for severe or recurrent symptoms to assess for complications.",
    ["heartburn", "acid reflux", "gerd", "regurgitation"]⟩),
  ("cellulitis", ⟨"🩹",
    "Bacterial skin infection causing redness, warmth, swelling and pain of the affected area.",
    "See clinician for antibiotics; urgent care if rapidly spreading or systemic symptoms.",
    ["cellulitis", "redness", "skin infection", "swelling"]⟩),
  ("anaphylaxis", ⟨"⚠️",
    "Severe allergic reaction with hives, swelling, difficulty breathing, or low blood pressure.",
    "Call emergency services immediately — this is life-threatening.",
    ["anaphylaxis", "anaphylactic", "hives", "swelling", "difficulty breathing"]⟩),
  ("panic attack", ⟨"😰",
    "Acute episodes of intense fear with palpitations, shortness of breath and a sense of doom.",
    "Grounding techniques and breathing; seek medical attention if first-time or atypical symptoms.",
    ["panic", "panic attack", "anxiety", "palpitations"]⟩),
  ("kidney stone", ⟨"🪨",
    "Hard deposits in the urinary tract causing severe flank pain, often with nausea and hematuria.",
    "Seek emergency care for severe pain, inability to pass urine, or fever.",
    ["kidney stone", "renal colic", "flank pain", "hematuria"]⟩)]

/-- The `_find_disease_info` matcher of `streamlit_app.py`: exact
case-insensitive key match, then bidirectional substring match, then
keyword match, then hard-coded alias fallbacks. -/
def findDiseaseInfo (diseaseName : String) : Option DiseaseRecord :=
  if diseaseName = "" then none
  else
    let dn := pyStrip (pyLower diseaseName)
    match diseaseInfo.find? fun e => pyLower e.1 = dn with
    | some e => some e.2
    | none =>
      match diseaseInfo.find? fun e => strIn (pyLower e.1) dn || strIn dn (pyLower e.1) with
      | some e => some e.2
      | none =>
        match diseaseInfo.find? fun e => e.2.keywords.any fun kw => strIn kw dn with
        | some e => some e.2
        | none =>
          if ["covid", "corona", "sars"].any fun tok => strIn tok dn then
            (diseaseInfo.find? fun e => e.1 = "covid-19").map Prod.snd
          else if strIn "flu" dn || strIn "influenza" dn then
            (diseaseInfo.find? fun e => e.1 = "influenza").map Prod.snd
          else none

/-- Specification-side raw score, following the words of the spec: the
overlap fraction `|A ∩ S| / max(1, |A|)` plus `0.12` times the number of
whitespace-separated name tokens occurring as substrings of the
lower-cased description, clamped below at 0. -/
noncomputable def specRawScore (S : Finset String) (description d : String)
    (A : Finset String) : ℝ :=
  max 0 (((A ∩ S).card : ℝ) / ((max 1 A.card : ℕ) : ℝ) +
    0.12 * (((pySplitWs d).filter fun tok => strIn tok (pyLower description)).length : ℝ))

/-- Specification-side softmax, following the words of the spec:
`softmax(v)_i = exp(v_i - max v) / sum_j exp(v_j - max v)`. -/
noncomputable def specSoftmax (vals : List ℝ) (v : ℝ) : ℝ :=
  Real.exp (v - pyMax vals) / ((vals.map fun w => Real.exp (w - pyMax vals)).sum)

/-- The COVID-19 record of the disease-information table. -/
def covidRecord : DiseaseRecord :=
  ⟨"🦠",
    "COVID-19 is caused by SARS‑CoV‑2 and can present with fever, cough, and loss of taste or smell.",
    "Isolate, test if available, monitor oxygenation. Seek urgent care for shortness of breath or chest pain.",
    ["covid", "sars", "corona", "loss of taste", "loss of smell"]⟩

/-- The rational number one half, written in reduced form so that kernel
reduction can evaluate comparisons on it directly. -/
def half : ℚ := ⟨1, 2, by decide, by decide⟩

/-! ### List arithmetic and rounding lemmas -/

lemma list_sum_map_div (l : List ℝ) (s : ℝ) :
    (l.map fun x => x / s).sum = l.sum / s := by
  induction l with
  | nil => simp
  | cons x xs ih => simp [ih, add_div]

lemma list_sum_nonneg (l : List ℝ) (h : ∀ x ∈ l, 0 ≤ x) : 0 ≤ l.sum := by
  induction l with
  | nil => simp
  | cons x xs ih =>
    simp only [List.sum_cons]
    have hx := h x (by simp)
    have hxs := ih fun y hy => h y (by simp [hy])
    linarith

lemma list_sum_pos (l : List ℝ) (h : ∀ x ∈ l, 0 < x) (hne : l ≠ []) : 0 < l.sum := by
  cases l with
  | nil => exact absurd rfl hne
  | cons x xs =>
    simp only [List.sum_cons]
    have hx := h x (by simp)
    have hxs := list_sum_nonneg xs fun y hy => (h y (by simp [hy])).le
    linarith

lemma list_sum_map_sub {α : Type} (l : List α) (f g : α → ℝ) :
    (l.map fun x => f x - g x).sum = (l.map f).sum - (l.map g).sum := by
  induction l with
  | nil => simp
  | cons x xs ih =>
    simp only [List.map_cons, List.sum_cons, ih]
    ring

lemma list_abs_sum_le {α : Type} (l : List α) (f : α → ℝ) (c : ℝ)
    (h : ∀ x ∈ l, |f x| ≤ c) : |(l.map f).sum| ≤ l.length * c := by
  induction l with
  | nil => simp
  | cons x xs ih =>
    simp only [List.map_cons, List.sum_cons, List.length_cons]
    have h1 := h x (by simp)
    have h2 := ih fun y hy => h y (by simp [hy])
    have h3 : |f x + (xs.map f).sum| ≤ |f x| + |(xs.map f).sum| := abs_add _ _
    push_cast
    linarith

lemma round3_close (x : ℝ) : |round3 x - x| ≤ 1 / 2000 := by
  unfold round3
  have h := abs_sub_round (1000 * x)
  have hrw : ((round (1000 * x) : ℤ) : ℝ) / 1000 - x =
      (1000 * x - ((round (1000 * x) : ℤ) : ℝ)) * (-1) / 1000 := by ring
  rw [hrw, abs_div, abs_mul]
  simp only [abs_neg, abs_one, mul_one]
  rw [abs_of_pos (by norm_num : (0 : ℝ) < 1000)]
  linarith

lemma round3_mono {x y : ℝ} (h : x ≤ y) : round3 x ≤ round3 y := by
  unfold round3
  have hr : round (1000 * x) ≤ round (1000 * y) := by
    rw [round_eq, round_eq]
    exact Int.floor_mono (by linarith)
  have hc : ((round (1000 * x) : ℤ) : ℝ) ≤ ((round (1000 * y) : ℤ) : ℝ) := by
    exact_mod_cast hr
  linarith

/-! ### Softmax lemmas -/

lemma expSum_pos (scores : List (String × ℝ)) (h : scores ≠ []) (m : ℝ) :
    0 < (scores.map fun q => Real.exp (q.2 - m)).sum := by
  apply list_sum_pos
  · intro x hx
    simp only [List.mem_map] at hx
    obtain ⟨q, _, rfl⟩ := hx
    exact Real.exp_pos _
  · simp [h]

lemma softmaxD_eq (scores : List (String × ℝ)) (h : scores ≠ []) :
    softmaxD scores = scores.map fun p =>
      (p.1, Real.exp (p.2 - pyMax (scores.map Prod.snd)) /
        ((scores.map fun q => Real.exp (q.2 - pyMax (scores.map Prod.snd))).sum)) := by
  have hempty : scores.isEmpty = false := by
    cases scores with
    | nil => exact absurd rfl h
    | cons a l => rfl
  have hexps : ((scores.map fun p =>
      (p.1, Real.exp (p.2 - pyMax (scores.map Prod.snd)))).map Prod.snd) =
      scores.map fun q => Real.exp (q.2 - pyMax (scores.map Prod.snd)) := by
    simp [List.map_map, Function.comp]
  have hspos := expSum_pos scores h (pyMax (scores.map Prod.snd))
  simp only [softmaxD, hempty, Bool.false_eq_true, if_false]
  rw [hexps, if_neg (not_le.mpr hspos)]
  simp [List.map_map, Function.comp]

lemma softmaxD_pos (scores : List (String × ℝ)) (h : scores ≠ []) :
    ∀ p ∈ softmaxD scores, 0 < p.2 := by
  rw [softmaxD_eq scores h]
  intro p hp
  simp only [List.mem_map] at hp
  obtain ⟨q, hq, rfl⟩ := hp
  exact div_pos (Real.exp_pos _) (expSum_pos scores h _)

lemma softmaxD_sum (scores : List (String × ℝ)) (h : scores ≠ []) :
    ((softmaxD scores).map Prod.snd).sum = 1 := by
  rw [softmaxD_eq scores h]
  have hS := expSum_pos scores h (pyMax (scores.map Prod.snd))
  rw [List.map_map]
  have h1 : (Prod.snd ∘ fun p : String × ℝ =>
      (p.1, Real.exp (p.2 - pyMax (scores.map Prod.snd)) /
        ((scores.map fun q => Real.exp (q.2 - pyMax (scores.map Prod.snd))).sum))) =
      (fun x => x / ((scores.map fun q =>
        Real.exp (q.2 - pyMax (scores.map Prod.snd))).sum)) ∘
        fun q : String × ℝ => Real.exp (q.2 - pyMax (scores.map Prod.snd)) := rfl
  rw [h1, ← List.map_map, list_sum_map_div]
  exact div_self (ne_of_gt hS)

lemma softmaxD_fst (scores : List (String × ℝ)) (h : scores ≠ []) :
    (softmaxD scores).map Prod.fst = scores.map Prod.fst := by
  rw [softmaxD_eq scores h]
  simp [List.map_map, Function.comp]

lemma softmaxD_length (scores : List (String × ℝ)) (h : scores ≠ []) :
    (softmaxD scores).length = scores.length := by
  rw [softmaxD_eq scores h, List.length_map]

/-! ### Insertion sort lemmas: order and stability -/

lemma insertionSort_byProbDesc_sorted (l : List (String × ℝ)) :
    (List.insertionSort byProbDesc l).Sorted byProbDesc := by
  haveI : IsTotal (String × ℝ) byProbDesc := ⟨fun a b => le_total b.2 a.2⟩
  haveI : IsTrans (String × ℝ) byProbDesc := ⟨fun a b c h1 h2 => le_trans h2 h1⟩
  exact List.sorted_insertionSort byProbDesc l

lemma orderedInsert_filter_eq (x : String × ℝ) (l : List (String × ℝ)) (c : ℝ) :
    (List.orderedInsert byProbDesc x l).filter (fun p => p.2 = c) =
      if x.2 = c then x :: l.filter (fun p => p.2 = c)
      else l.filter fun p => p.2 = c := by
  induction l with
  | nil =>
    by_cases hx : x.2 = c <;> simp [List.orderedInsert, List.filter, hx]
  | cons y ys ih =>
    by_cases hxy : byProbDesc x y
    · simp only [List.orderedInsert, if_pos hxy]
      by_cases hx : x.2 = c <;> by_cases hy : y.2 = c <;>
        simp [List.filter_cons, hx, hy]
    · have hlt : x.2 < y.2 := not_le.mp hxy
      simp only [List.orderedInsert, if_neg hxy]
      by_cases hx : x.2 = c
      · have hy : ¬ y.2 = c := by
          rw [← hx]
          exact ne_of_gt hlt
        simp [List.filter_cons, hy, ih, hx]
      · by_cases hy : y.2 = c <;> simp [List.filter_cons, hy, ih, hx]

lemma insertionSort_filter_eq (l : List (String × ℝ)) (c : ℝ) :
    (List.insertionSort byProbDesc l).filter (fun p => p.2 = c) =
      l.filter fun p => p.2 = c := by
  induction l with
  | nil => rfl
  | cons x xs ih =>
    simp only [List.insertionSort]
    rw [orderedInsert_filter_eq]
    by_cases hx : x.2 = c <;> simp [List.filter_cons, hx, ih]

/-! ### Heuristic backend pipeline lemmas -/

lemma rawScores_ne_nil (req : PredictRequest) : rawScores req ≠ [] := by
  simp [rawScores, diseaseSymptoms]

lemma mockProbs_pos (req : PredictRequest) : ∀ p ∈ mockProbs req, 0 < p.2 :=
  softmaxD_pos _ (rawScores_ne_nil req)

lemma mockProbs_sum (req : PredictRequest) :
    ((mockProbs req).map Prod.snd).sum = 1 :=
  softmaxD_sum _ (rawScores_ne_nil req)

lemma mockProbs_length (req : PredictRequest) : (mockProbs req).length = 16 := by
  rw [mockProbs, softmaxD_length _ (rawScores_ne_nil req)]
  simp [rawScores, diseaseSymptoms]

lemma sortedProbs_filter_pos (req : PredictRequest) :
    (List.insertionSort byProbDesc (mockProbs req)).filter (fun p => 0 < p.2) =
      List.insertionSort byProbDesc (mockProbs req) := by
  rw [List.filter_eq_self]
  intro p hp
  have hmem : p ∈ mockProbs req := (List.perm_insertionSort byProbDesc _).mem_iff.mp hp
  simpa using mockProbs_pos req p hmem

lemma mockRankedPreds_eq (req : PredictRequest) :
    mockRankedPreds req =
      (List.insertionSort byProbDesc (mockProbs req)).map fun p => ⟨p.1, round3 p.2⟩ := by
  rw [mockRankedPreds, sortedProbs_filter_pos]

lemma mockRankedPreds_length (req : PredictRequest) :
    (mockRankedPreds req).length = 16 := by
  rw [mockRankedPreds_eq, List.length_map,
    (List.perm_insertionSort byProbDesc _).length_eq, mockProbs_length]

lemma mockRankedPreds_ne_nil (req : PredictRequest) : mockRankedPreds req ≠ [] := by
  intro h
  have hl := mockRankedPreds_length req
  rw [h] at hl
  simp at hl

lemma mockPredict_predictions (req : PredictRequest) :
    (mockPredict req).predictions = mockRankedPreds req := by
  rw [mockPredict]
  have h : (mockRankedPreds req).isEmpty = false := by
    cases hh : mockRankedPreds req with
    | nil => exact absurd hh (mockRankedPreds_ne_nil req)
    | cons a l => rfl
  simp [h]

lemma mockPredictions_length (req : PredictRequest) :
    (mockPredict req).predictions.length = 16 := by
  rw [mockPredict_predictions, mockRankedPreds_length]

lemma mockRankedPreds_sorted (req : PredictRequest) :
    (mockRankedPreds req).Pairwise fun a b => b.probability ≤ a.probability := by
  rw [mockRankedPreds_eq]
  refine List.pairwise_map.mpr ?_
  exact (insertionSort_byProbDesc_sorted (mockProbs req)).imp fun h => round3_mono h

/-! ### Statistical backend pipeline lemmas -/

lemma argsortAsc_sorted (probs : List ℚ) :
    (argsortAsc probs).Sorted fun i j => probs.getD i 0 ≤ probs.getD j 0 := by
  haveI : IsTotal ℕ fun i j => probs.getD i 0 ≤ probs.getD j 0 :=
    ⟨fun i j => le_total _ _⟩
  haveI : IsTrans ℕ fun i j => probs.getD i 0 ≤ probs.getD j 0 :=
    ⟨fun i j k h1 h2 => le_trans h1 h2⟩
  exact List.sorted_insertionSort _ _

lemma predictMain_nil (description : String) (probs : List ℚ) (classLabels : List String) :
    predictMain [] description probs classLabels =
      ⟨[], ⟨"low", "Please provide at least one symptom."⟩, "no_input"⟩ := by
  rw [predictMain, if_pos rfl]

lemma predictMain_predictions (symptoms : List String) (description : String)
    (probs : List ℚ) (classLabels : List String) (h : symptoms ≠ []) :
    (predictMain symptoms description probs classLabels).predictions =
      ((argsortAsc probs).reverse.take 10).map fun i =>
        (⟨classLabels.getD i (toString i), probs.getD i 0⟩ : PredictionEntry ℚ) := by
  rw [predictMain, if_neg h]

lemma predictMain_sorted (symptoms : List String) (description : String)
    (probs : List ℚ) (classLabels : List String) (h : symptoms ≠ []) :
    (predictMain symptoms description probs classLabels).predictions.Pairwise
      fun a b => b.probability ≤ a.probability := by
  rw [predictMain_predictions _ _ _ _ h]
  refine List.pairwise_map.mpr ?_
  have h1 : ((argsortAsc probs).reverse).Pairwise fun i j =>
      probs.getD j 0 ≤ probs.getD i 0 := by
    rw [List.pairwise_reverse]
    exact argsortAsc_sorted probs
  exact List.Pairwise.sublist (List.take_sublist _ _) h1

lemma predictMain_length_le (symptoms : List String) (description : String)
    (probs : List ℚ) (classLabels : List String) :
    (predictMain symptoms description probs classLabels).predictions.length ≤ 10 := by
  by_cases h : symptoms = []
  · subst h
    rw [predictMain_nil]
    simp
  · rw [predictMain_predictions _ _ _ _ h, List.length_map]
    exact le_trans (List.length_take_le _ _) (le_refl 10)

/-! ### Probability-sum lemmas for the heuristic backend -/

lemma mockPredictions_sum_eq (req : PredictRequest) :
    ((mockPredict req).predictions.map PredictionEntry.probability).sum =
      ((mockProbs req).map fun p => round3 p.2).sum := by
  rw [mockPredict_predictions, mockRankedPreds_eq, List.map_map]
  have h1 : (PredictionEntry.probability ∘ fun p : String × ℝ =>
      (⟨p.1, round3 p.2⟩ : PredictionEntry ℝ)) = fun p : String × ℝ => round3 p.2 := rfl
  rw [h1]
  exact List.Perm.sum_eq (List.Perm.map _ (List.perm_insertionSort byProbDesc (mockProbs req)))

lemma mockPredictions_sum_close (req : PredictRequest) :
    |((mockPredict req).predictions.map PredictionEntry.probability).sum - 1| ≤ 1 / 100 := by
  rw [mockPredictions_sum_eq]
  have hsum : ((mockProbs req).map fun p => p.2).sum = 1 := mockProbs_sum req
  have hdiff : ((mockProbs req).map fun p => round3 p.2).sum - 1 =
      ((mockProbs req).map fun p => round3 p.2 - p.2).sum := by
    rw [list_sum_map_sub, hsum]
  have hb : ∀ p ∈ mockProbs req, |round3 p.2 - p.2| ≤ 1 / 2000 :=
    fun p _ => round3_close p.2
  have habs := list_abs_sum_le (mockProbs req) (fun p => round3 p.2 - p.2) (1 / 2000) hb
  rw [mockProbs_length] at habs
  rw [hdiff]
  have h16 : ((16 : ℕ) : ℝ) * (1 / 2000) ≤ 1 / 100 := by norm_num
  linarith [habs, h16]

/-! ### Equivalence of the heuristic scorer with the specification formulas -/

lemma foldl_boost_count (l : List String) (P : String → Bool) (a : ℝ) :
    l.foldl (fun acc tok => if P tok then acc + 0.12 else acc) a =
      a + 0.12 * ((l.filter P).length : ℝ) := by
  induction l generalizing a with
  | nil => simp
  | cons t ts ih =>
    by_cases h : P t
    · simp only [List.foldl_cons, h, if_true, List.filter_cons, ih, List.length_cons]
      push_cast
      ring
    · simp only [List.foldl_cons, h, if_false, List.filter_cons, ih]
      simp [h]

lemma descBoost_eq (d description : String) :
    descBoost d description =
      0.12 * (((pySplitWs d).filter fun tok => strIn tok (pyLower description)).length : ℝ) := by
  rw [descBoost, foldl_boost_count, zero_add]

lemma rawScore_eq_spec (S : Finset String) (description d : String) (attrs : List String) :
    rawScore S description d attrs = specRawScore S description d attrs.toFinset := by
  simp only [rawScore, specRawScore, descBoost_eq]

lemma rawScores_eq_spec (req : PredictRequest) :
    rawScores req = diseaseSymptoms.map fun e =>
      (e.1, specRawScore (givenSet req.symptoms) req.description e.1 e.2.toFinset) := by
  rw [rawScores]
  apply List.map_congr_left
  intro e _
  rw [rawScore_eq_spec]

lemma mockProbs_eq_spec (req : PredictRequest) :
    mockProbs req = (rawScores req).map fun p =>
      (p.1, specSoftmax ((rawScores req).map Prod.snd) p.2) := by
  rw [mockProbs, softmaxD_eq _ (rawScores_ne_nil req)]
  apply List.map_congr_left
  intro p _
  rw [specSoftmax]
  simp only [List.map_map]
  rfl

/-! ### All-zero raw scores give the uniform softmax distribution -/

lemma rawScores_length (req : PredictRequest) : (rawScores req).length = 16 := by
  simp [rawScores, diseaseSymptoms]

lemma foldl_max_zero (l : List ℝ) (h : ∀ x ∈ l, x = 0) : l.foldl max 0 = 0 := by
  induction l with
  | nil => rfl
  | cons x xs ih =>
    have hx : x = 0 := h x (by simp)
    rw [List.foldl_cons, hx, max_self]
    exact ih fun y hy => h y (by simp [hy])

lemma pyMax_zero (l : List ℝ) (h : ∀ x ∈ l, x = 0) : pyMax l = 0 := by
  cases l with
  | nil => rfl
  | cons x xs =>
    rw [pyMax]
    have hx : x = 0 := h x (by simp)
    rw [hx]
    exact foldl_max_zero xs fun y hy => h y (by simp [hy])

lemma mockProbs_uniform (req : PredictRequest) (h : ∀ p ∈ rawScores req, p.2 = 0) :
    mockProbs req = diseaseSymptoms.map fun e => (e.1, (1 / 16 : ℝ)) := by
  rw [mockProbs, softmaxD_eq _ (rawScores_ne_nil req)]
  have hm : pyMax ((rawScores req).map Prod.snd) = 0 := by
    apply pyMax_zero
    intro x hx
    simp only [List.mem_map] at hx
    obtain ⟨p, hp, rfl⟩ := hx
    exact h p hp
  simp only [hm]
  have hS : ((rawScores req).map fun q => Real.exp (q.2 - 0)).sum = 16 := by
    have hrep : ((rawScores req).map fun q => Real.exp (q.2 - 0)) =
        List.replicate 16 (1 : ℝ) := by
      rw [List.eq_replicate_iff]
      refine ⟨by rw [List.length_map, rawScores_length], ?_⟩
      intro b hb
      simp only [List.mem_map] at hb
      obtain ⟨q, hq, rfl⟩ := hb
      rw [h q hq]
      norm_num
    rw [hrep, List.sum_replicate]
    norm_num
  simp only [hS]
  rw [rawScores, List.map_map]
  apply List.map_congr_left
  intro e he
  have hmem : (e.1, rawScore (givenSet req.symptoms) req.description e.1 e.2) ∈ rawScores req := by
    rw [rawScores]
    exact List.mem_map.mpr ⟨e, he, rfl⟩
  have hz : rawScore (givenSet req.symptoms) req.description e.1 e.2 = 0 := h _ hmem
  simp only [Function.comp]
  rw [hz]
  norm_num

/-! ### The empty request: all raw scores are zero -/

lemma pySplitWs_ne_empty {s tok : String} (h : tok ∈ pySplitWs s) : tok ≠ "" := by
  rw [pySplitWs] at h
  simp only [List.mem_map, List.mem_filter] at h
  obtain ⟨t, ⟨_, ht⟩, rfl⟩ := h
  intro hc
  have hdata : t = [] := congrArg String.data hc
  rw [hdata] at ht
  simp at ht

lemma descBoost_empty (d : String) : descBoost d "" = 0 := by
  rw [descBoost_eq]
  have hlen : ((pySplitWs d).filter fun tok => strIn tok (pyLower "")).length = 0 := by
    rw [List.length_eq_zero, List.filter_eq_nil_iff]
    intro tok htok
    have hne := pySplitWs_ne_empty htok
    have hd : tok.data ≠ [] := by
      intro hh
      apply hne
      cases tok
      simp only at hh
      rw [hh]
    show ¬ (strIn tok (pyLower "") = true)
    rw [strIn]
    have : pyLower "" = "" := rfl
    rw [this]
    show ¬ (containsSub tok.data [] = true)
    rw [containsSub]
    simpa using hd
  rw [hlen]
  norm_num

lemma rawScore_empty_input (d : String) (attrs : List String) :
    rawScore ∅ "" d attrs = 0 := by
  simp only [rawScore]
  rw [descBoost_empty]
  simp

lemma rawScores_empty_zero : ∀ p ∈ rawScores ⟨[], ""⟩, p.2 = 0 := by
  intro p hp
  rw [rawScores] at hp
  simp only [List.mem_map] at hp
  obtain ⟨e, he, rfl⟩ := hp
  show rawScore (givenSet []) "" e.1 e.2 = 0
  exact rawScore_empty_input e.1 e.2

/-! ### Urgency lemmas -/

lemma mockPredict_urgency_high (req : PredictRequest)
    (h : "chest_pain" ∈ givenSet req.symptoms ∨
      "shortness_of_breath" ∈ givenSet req.symptoms ∨
      strIn "chest" (pyLower req.description) = true) :
    (mockPredict req).urgency =
      ⟨"high",
        "Seek immediate medical attention (ER) for chest pain or severe breathing difficulty."⟩ := by
  simp only [mockPredict]
  rw [if_pos h]

lemma mockPredict_urgency_empty :
    (mockPredict ⟨[], ""⟩).urgency =
      ⟨"low", "Monitor symptoms and follow up if they worsen."⟩ := by
  simp only [mockPredict]
  rw [if_neg (by decide), if_neg (by decide)]

lemma predictMain_urgency_high (symptoms : List String) (description : String)
    (probs : List ℚ) (classLabels : List String) (hne : symptoms ≠ [])
    (h : (givenSet ((symptoms.filter fun s => s ≠ "").map pyStrip) ∩
        ({"chest_pain", "shortness_of_breath", "severe_breathing"} : Finset String)).Nonempty ∨
      strIn "chest" (pyLower description) = true) :
    (predictMain symptoms description probs classLabels).urgency =
      ⟨"high", "Seek immediate medical attention (call emergency services or go to ER)."⟩ := by
  simp only [predictMain, if_neg hne]
  rw [if_pos h]

/-! ### Key permutation for the heuristic predictions -/

lemma mockPredictions_keys_perm (req : PredictRequest) :
    ((mockPredict req).predictions.map PredictionEntry.disease).Perm
      (diseaseSymptoms.map Prod.fst) := by
  rw [mockPredict_predictions, mockRankedPreds_eq, List.map_map]
  have h1 : (PredictionEntry.disease ∘ fun p : String × ℝ =>
      (⟨p.1, round3 p.2⟩ : PredictionEntry ℝ)) = Prod.fst := rfl
  rw [h1]
  have h2 := List.Perm.map Prod.fst (List.perm_insertionSort byProbDesc (mockProbs req))
  have h3 : (mockProbs req).map Prod.fst = diseaseSymptoms.map Prod.fst := by
    rw [mockProbs, softmaxD_fst _ (rawScores_ne_nil req), rawScores, List.map_map]
    rfl
  rw [← h3]
  exact h2

/-! ### Claim theorems -/

/-- C1: for every request with a non-empty symptom list, the predictions
list in the response is sorted by probability in non-increasing order, on
both the statistical and the heuristic backend. -/
theorem claim1_predictions_sorted :
    (∀ (symptoms : List String) (description : String) (probs : List ℚ)
        (classLabels : List String), symptoms ≠ [] →
        (predictMain symptoms description probs classLabels).predictions.Pairwise
          fun a b => b.probability ≤ a.probability) ∧
    (∀ req : PredictRequest, req.symptoms ≠ [] →
        (mockPredict req).predictions.Pairwise fun a b => b.probability ≤ a.probability) :=
  ⟨fun s d p c h => predictMain_sorted s d p c h,
   fun req _ => by rw [mockPredict_predictions]; exact mockRankedPreds_sorted req⟩

/-- C1 witness: the sortedness theorem applied at concrete inputs on both
backends. -/
theorem claim1_predictions_sorted_witness :
    (predictMain ["fever"] "" [half, 1] ["influenza", "covid-19"]).predictions.Pairwise
      (fun a b => b.probability ≤ a.probability) ∧
    (mockPredict ⟨["fever"], ""⟩).predictions.Pairwise
      fun a b => b.probability ≤ a.probability :=
  ⟨claim1_predictions_sorted.1 ["fever"] "" [half, 1] ["influenza", "covid-19"] (by decide),
   claim1_predictions_sorted.2 ⟨["fever"], ""⟩ (by decide)⟩

/-- C2 counterexample: the claim says `infer([], "")` returns an empty
predictions list on every backend; on the heuristic backend the
predictions list of the empty request has 16 entries, so it is not empty
and no short-circuit happens. -/
theorem claim2_counterexample :
    (mockPredict ⟨[], ""⟩).predictions.length = 16 ∧
    (mockPredict ⟨[], ""⟩).predictions ≠ [] := by
  refine ⟨mockPredictions_length _, ?_⟩
  intro h
  have hl := mockPredictions_length (⟨[], ""⟩ : PredictRequest)
  rw [h] at hl
  simp at hl

/-- C2 amended: only the statistical backend short-circuits an empty
symptom list into the `no_input` response with empty predictions and the
low-urgency provide-at-least-one-symptom recommendation; the heuristic
backend does not short-circuit: `infer([], "")` there returns a full
16-entry prediction list with low urgency, and its response carries no
status field at all. -/
theorem claim2_amended :
    (∀ (description : String) (probs : List ℚ) (classLabels : List String),
        predictMain [] description probs classLabels =
          ⟨[], ⟨"low", "Please provide at least one symptom."⟩, "no_input"⟩) ∧
    (mockPredict ⟨[], ""⟩).predictions.length = 16 ∧
    (mockPredict ⟨[], ""⟩).urgency =
      ⟨"low", "Monitor symptoms and follow up if they worsen."⟩ :=
  ⟨predictMain_nil, mockPredictions_length _, mockPredict_urgency_empty⟩

/-- C3 counterexample: a request with an empty symptom list whose
description contains the substring "chest" gets urgency "low", not
"high", from the statistical backend, because the no-input short-circuit
runs before the urgency heuristics. -/
theorem claim3_counterexample :
    strIn "chest" (pyLower "chest pain") = true ∧
    (predictMain [] "chest pain" [] []).urgency.level = "low" := by decide

/-- C3 amended: a request whose normalized symptom set meets the
high-risk flag set, or whose lower-cased description contains "chest",
gets the high urgency tier with the emergency-care recommendation — on
the statistical backend provided the symptom list is non-empty (its
no-input short-circuit precedes the urgency heuristics), and on the
heuristic backend unconditionally; the high tier is checked before the
medium tier, so other symptoms cannot downgrade it. -/
theorem claim3_amended :
    (∀ (symptoms : List String) (description : String) (probs : List ℚ)
        (classLabels : List String), symptoms ≠ [] →
        ((givenSet ((symptoms.filter fun s => s ≠ "").map pyStrip) ∩
            ({"chest_pain", "shortness_of_breath", "severe_breathing"} : Finset String)).Nonempty ∨
          strIn "chest" (pyLower description) = true) →
        (predictMain symptoms description probs classLabels).urgency =
          ⟨"high", "Seek immediate medical attention (call emergency services or go to ER)."⟩) ∧
    (∀ req : PredictRequest,
        ("chest_pain" ∈ givenSet req.symptoms ∨
          "shortness_of_breath" ∈ givenSet req.symptoms ∨
          strIn "chest" (pyLower req.description) = true) →
        (mockPredict req).urgency =
          ⟨"high",
            "Seek immediate medical attention (ER) for chest pain or severe breathing difficulty."⟩) :=
  ⟨predictMain_urgency_high, mockPredict_urgency_high⟩

/-- C3 witness: the amended urgency theorem applied to concrete requests
that also carry medium-tier symptoms. -/
theorem claim3_amended_witness :
    (predictMain ["chest pain", "fever"] "" [] []).urgency =
      ⟨"high", "Seek immediate medical attention (call emergency services or go to ER)."⟩ ∧
    (mockPredict ⟨["fever", "chest pain"], ""⟩).urgency =
      ⟨"high",
        "Seek immediate medical attention (ER) for chest pain or severe breathing difficulty."⟩ :=
  ⟨claim3_amended.1 ["chest pain", "fever"] "" [] [] (by decide) (Or.inl (by decide)),
   claim3_amended.2 ⟨["fever", "chest pain"], ""⟩ (Or.inl (by decide))⟩

/-- C4: whenever the heuristic backend returns a non-empty predictions
list, the probabilities (after per-entry rounding) sum to within 0.01 of
1, and the fixed fallback list also sums to within 0.01 of 1. -/
theorem claim4_probability_sum :
    (∀ req : PredictRequest, (mockPredict req).predictions ≠ [] →
        |((mockPredict req).predictions.map PredictionEntry.probability).sum - 1| ≤ 1 / 100) ∧
    |(fallbackPreds.map PredictionEntry.probability).sum - 1| ≤ 1 / 100 := by
  refine ⟨fun req _ => mockPredictions_sum_close req, ?_⟩
  norm_num [fallbackPreds]

/-- C4 witness: the probability-sum theorem applied at a concrete
request, whose predictions list is non-empty because it always has 16
entries. -/
theorem claim4_probability_sum_witness :
    |((mockPredict ⟨["fever"], ""⟩).predictions.map PredictionEntry.probability).sum - 1| ≤
      1 / 100 :=
  claim4_probability_sum.1 ⟨["fever"], ""⟩ (by
    intro h
    have hl := mockPredictions_length (⟨["fever"], ""⟩ : PredictRequest)
    rw [h] at hl
    simp at hl)

/-- C5: on the heuristic backend the raw score of every candidate disease
equals the specification formula `max(0, |A ∩ S| / max(1, |A|) + 0.12 k)`,
and the pre-rounding probability of every candidate equals the softmax
`exp(v - max v) / sum exp(v_j - max v)` of those raw scores. -/
theorem claim5_softmax_of_raw :
    ∀ req : PredictRequest,
      rawScores req = diseaseSymptoms.map (fun e =>
        (e.1, specRawScore (givenSet req.symptoms) req.description e.1 e.2.toFinset)) ∧
      mockProbs req = (rawScores req).map fun p =>
        (p.1, specSoftmax ((rawScores req).map Prod.snd) p.2) :=
  fun req => ⟨rawScores_eq_spec req, mockProbs_eq_spec req⟩

/-- C6 counterexample: on the empty request every raw score is 0 (stated
as the score list being sixteen zeros), yet the heuristic backend does
not return the fixed fallback ranking. -/
theorem claim6_counterexample :
    (rawScores ⟨[], ""⟩).map Prod.snd = List.replicate 16 (0 : ℝ) ∧
    (mockPredict ⟨[], ""⟩).predictions ≠ fallbackPreds := by
  constructor
  · rw [List.eq_replicate_iff]
    refine ⟨by rw [List.length_map, rawScores_length], ?_⟩
    intro b hb
    simp only [List.mem_map] at hb
    obtain ⟨p, hp, rfl⟩ := hb
    exact rawScores_empty_zero p hp
  · intro hc
    have hl := mockPredictions_length (⟨[], ""⟩ : PredictRequest)
    rw [hc] at hl
    simp [fallbackPreds] at hl

/-- C6 amended: whenever every raw heuristic score is exactly 0 the
heuristic backend returns the uniform softmax distribution (probability
1/16 for each of the 16 candidates, before rounding) rather than the
fixed fallback ranking; the fallback list is dead code because the
softmax output is never empty. -/
theorem claim6_amended :
    ∀ req : PredictRequest, (∀ p ∈ rawScores req, p.2 = 0) →
      mockProbs req = diseaseSymptoms.map (fun e => (e.1, (1 / 16 : ℝ))) ∧
      (mockPredict req).predictions.length = 16 ∧
      (mockPredict req).predictions ≠ fallbackPreds :=
  fun req h =>
    ⟨mockProbs_uniform req h, mockPredictions_length req, by
      intro hc
      have hl := mockPredictions_length req
      rw [hc] at hl
      simp [fallbackPreds] at hl⟩

/-- C6 witness: the amended theorem applied to the empty request, whose
raw scores are all zero. -/
theorem claim6_amended_witness :
    mockProbs ⟨[], ""⟩ = diseaseSymptoms.map (fun e => (e.1, (1 / 16 : ℝ))) ∧
    (mockPredict ⟨[], ""⟩).predictions.length = 16 ∧
    (mockPredict ⟨[], ""⟩).predictions ≠ fallbackPreds :=
  claim6_amended ⟨[], ""⟩ rawScores_empty_zero

/-- C7 counterexample: the heuristic backend applies no truncation: the
predictions list of a concrete request has 16 entries, more than the
claimed bound of 10. -/
theorem claim7_counterexample :
    (mockPredict ⟨["fever"], ""⟩).predictions.length = 16 ∧
    ¬ (mockPredict ⟨["fever"], ""⟩).predictions.length ≤ 10 := by
  refine ⟨mockPredictions_length _, ?_⟩
  rw [mockPredictions_length]
  norm_num

/-- C7 amended: the statistical backend truncates its ranked predictions
to at most 10 entries (a hard-coded `top_n` of 10); the heuristic backend
performs no truncation and always returns all 16 candidates. -/
theorem claim7_amended :
    (∀ (symptoms : List String) (description : String) (probs : List ℚ)
        (classLabels : List String),
        (predictMain symptoms description probs classLabels).predictions.length ≤ 10) ∧
    (∀ req : PredictRequest, (mockPredict req).predictions.length = 16) :=
  ⟨predictMain_length_le, mockPredictions_length⟩

/-- C8 counterexample: on the statistical backend two entries with equal
probability appear in the ranked output in the reverse of the scorer's
emission order, because the ranking reverses a stable ascending argsort:
with probabilities `[1/2, 1/2]` and labels `["X", "Y"]` the scorer emits
X before Y but the response ranks Y before X. -/
theorem claim8_counterexample :
    half = 1 / 2 ∧
    (predictMain ["a"] "" [half, half] ["X", "Y"]).predictions =
      [⟨"Y", half⟩, ⟨"X", half⟩] ∧
    mainEmission [half, half] ["X", "Y"] = [⟨"X", half⟩, ⟨"Y", half⟩] ∧
    (predictMain ["a"] "" [half, half] ["X", "Y"]).predictions ≠
      mainEmission [half, half] ["X", "Y"] := by
  refine ⟨?_, by decide, by decide, by decide⟩
  rw [half, Rat.mk'_eq_divInt, Rat.divInt_eq_div]
  norm_num

/-- C8 amended: the heuristic backend's ranking is stable: restricted to
any fixed probability value, the sorted distribution lists exactly the
entries the scorer emitted at that value, in the scorer's emission order;
the statistical backend instead reverses the relative order of
equal-probability entries. -/
theorem claim8_heuristic_stable :
    ∀ (req : PredictRequest) (c : ℝ),
      ((List.insertionSort byProbDesc (mockProbs req)).filter fun p => p.2 = c) =
        (mockProbs req).filter fun p => p.2 = c :=
  fun req c => insertionSort_filter_eq (mockProbs req) c

/-- C9: the lookups of "COVID-19" (case-insensitive exact key match),
"covid-19 infection" (substring match) and "corona" (keyword match) all
resolve to the same COVID-19 disease-information record. -/
theorem claim9_lookup_covid :
    findDiseaseInfo "COVID-19" = some covidRecord ∧
    findDiseaseInfo "covid-19 infection" = some covidRecord ∧
    findDiseaseInfo "corona" = some covidRecord := by decide

/-- C10: on the heuristic backend the softmax assigns a strictly positive
probability to every disease of the table, so the positive-probability
filter removes nothing and the predictions list always has exactly one
entry per table disease. -/
theorem claim10_full_table :
    ∀ req : PredictRequest,
      (∀ p ∈ mockProbs req, 0 < p.2) ∧
      ((List.insertionSort byProbDesc (mockProbs req)).filter fun p => 0 < p.2) =
        List.insertionSort byProbDesc (mockProbs req) ∧
      (mockPredict req).predictions.length = 16 ∧
      ((mockPredict req).predictions.map PredictionEntry.disease).Perm
        (diseaseSymptoms.map Prod.fst) :=
  fun req =>
    ⟨mockProbs_pos req, sortedProbs_filter_pos req, mockPredictions_length req,
      mockPredictions_keys_perm req⟩

/-- C10 witness: the theorem applied at the empty request, instantiating
the positivity statement at the common-cold entry of the uniform
distribution. -/
theorem claim10_full_table_witness :
    0 < (1 / 16 : ℝ) ∧ (mockPredict ⟨[], ""⟩).predictions.length = 16 :=
  ⟨(claim10_full_table ⟨[], ""⟩).1 ("common cold", 1 / 16) (by
      rw [mockProbs_uniform _ rawScores_empty_zero]
      simp [diseaseSymptoms]),
    (claim10_full_table ⟨[], ""⟩).2.2.1⟩

end MediScan
